import Mathlib

/-!
Shallow embedding of the session-memory and query-understanding pipeline of
`src/backend/src/services/memory_service.py` and
`src/backend/src/services/query_service.py`, together with the schemas of
`src/backend/src/schemas/chat.py` and the constants of `src/backend/src/config.py`.

Conventions of the embedding:
- tiktoken's encoder is an external deterministic function; it is passed in as a
  parameter `enc : String → List Nat` (the token id list of a text), exactly as
  `MemoryService.count_tokens` only ever uses `len(self.encoding.encode(text))`.
- Calls to the OpenAI API are external and fallible; each is passed in as an
  `Except Unit α` parameter: `Except.error ()` models the call raising an
  exception (caught by the surrounding `try/except` in the source) and
  `Except.ok v` models a successful structured-output parse returning `v`.
- Python `datetime` instants are abstract and modelled as `Nat`.
- Python truthiness is modelled explicitly where the source relies on it
  (empty list / empty string / `None` / `0` are falsy).
-/

/-- Message schema of `chat.py`: `role`, `content`, optional `timestamp`. -/
structure Message where
  role : String
  content : String
  timestamp : Option Nat := none
deriving DecidableEq, Repr

/-- UserProfile schema of `chat.py`: preferences and constraints. -/
structure UserProfile where
  preferences : List String := []
  constraints : List String := []
deriving DecidableEq, Repr

/-- SessionSummary schema of `chat.py`. -/
structure SessionSummary where
  user_profile : UserProfile := {}
  key_facts : List String := []
  decisions : List String := []
  open_questions : List String := []
  todos : List String := []
deriving DecidableEq, Repr

/-- MessageRange models the `message_range_summarized` dict
`\x7b"from": 0, "to": len(memory.messages) - 1\x7d` set by
`MemoryService.summarize_session` (`from` is a reserved word in Lean, so the
keys are named `fromIdx` and `toIdx`). -/
structure MessageRange where
  fromIdx : Nat
  toIdx : Nat
deriving DecidableEq, Repr

/-- SessionMemory schema of `chat.py`; field defaults follow the pydantic
defaults (`datetime.now()` is the abstract instant passed at creation). -/
structure SessionMemory where
  session_id : String
  summary : Option SessionSummary := none
  message_range_summarized : Option MessageRange := none
  messages : List Message := []
  total_tokens : Nat := 0
  created_at : Nat
  updated_at : Nat
deriving DecidableEq, Repr

/-- QueryUnderstanding schema of `chat.py`. -/
structure QueryUnderstanding where
  original_query : String
  is_ambiguous : Bool := false
  rewritten_query : Option String := none
  needed_context_from_memory : List String := []
  clarifying_questions : List String := []
  final_augmented_context : String := ""
deriving DecidableEq, Repr

/-- Settings of `config.py` that the two services read; the repository's
defaults are `TOKEN_THRESHOLD = 1000` and `RECENT_MESSAGES_COUNT = 5`. -/
structure Settings where
  TOKEN_THRESHOLD : Nat
  RECENT_MESSAGES_COUNT : Nat
deriving DecidableEq, Repr

/-- defaultSettings: the values in `config.py`. -/
def defaultSettings : Settings :=
  { TOKEN_THRESHOLD := 1000, RECENT_MESSAGES_COUNT := 5 }

/-- count_tokens of `memory_service.py`: `len(self.encoding.encode(text))`,
with the tiktoken encoder abstracted as `enc`. -/
def count_tokens (enc : String → List Nat) (text : String) : Nat :=
  (enc text).length

/-- count_messages_tokens of `memory_service.py`: running total of
`count_tokens(f"\x7bmsg.role\x7d: \x7bmsg.content\x7d")` over the list. -/
def count_messages_tokens (enc : String → List Nat) (messages : List Message) : Nat :=
  messages.foldl (fun total msg => total + count_tokens enc (msg.role ++ ": " ++ msg.content)) 0

/-- pySliceLast models the Python slice `lst[-k:]` on a list: for `k > 0` it is
the last `min k (length lst)` elements; for `k = 0`, `-0 == 0` so `lst[-0:]`
is `lst[0:]`, the whole list. -/
def pySliceLast {α : Type} (k : Nat) (l : List α) : List α :=
  if k = 0 then l else l.drop (l.length - k)

/-- add_message of `memory_service.py`: append the message, then recompute
`total_tokens` over the entire current message list. -/
def add_message (enc : String → List Nat) (memory : SessionMemory) (message : Message) :
    SessionMemory :=
  let msgs := memory.messages ++ [message]
  { memory with messages := msgs, total_tokens := count_messages_tokens enc msgs }

/-- should_summarize of `memory_service.py`:
`memory.total_tokens > settings.TOKEN_THRESHOLD`. -/
def should_summarize (s : Settings) (memory : SessionMemory) : Bool :=
  memory.total_tokens > s.TOKEN_THRESHOLD

/-- get_recent_messages of `memory_service.py`. `count = None` marks the
argument as not supplied (Python default). The source line
`count = count or settings.RECENT_MESSAGES_COUNT` replaces a falsy `count`
(`None` or `0`) by the configured constant, and
`memory.messages[-count:] if memory.messages else []` takes the last `count`
messages of a non-empty list. -/
def get_recent_messages (s : Settings) (memory : SessionMemory) (count : Option Nat) :
    List Message :=
  let c := match count with
    | some k => if k = 0 then s.RECENT_MESSAGES_COUNT else k
    | none => s.RECENT_MESSAGES_COUNT
  if memory.messages.isEmpty then [] else pySliceLast c memory.messages

/-- summarize_session of `memory_service.py`. The OpenAI structured-output
call is the `response` parameter: `Except.error ()` is a raised exception
(caught by the `except` clause, which only logs, so the memory is returned
unmodified), `Except.ok summary` is a successful parse into `SessionSummary`.
On success the source sets `summary`, sets `message_range_summarized` from the
pre-truncation length, truncates `messages` to the last
`RECENT_MESSAGES_COUNT` entries when longer than that, and recomputes
`total_tokens` over the truncated list. -/
def summarize_session (s : Settings) (enc : String → List Nat) (memory : SessionMemory)
    (response : Except Unit SessionSummary) : SessionMemory :=
  if memory.messages.isEmpty then memory
  else
    match response with
    | Except.error _ => memory
    | Except.ok summary =>
      let keep_count := s.RECENT_MESSAGES_COUNT
      let truncated :=
        if memory.messages.length > keep_count then pySliceLast keep_count memory.messages
        else memory.messages
      { memory with
        summary := some summary
        message_range_summarized := some ⟨0, memory.messages.length - 1⟩
        messages := truncated
        total_tokens := count_messages_tokens enc truncated }

/-- freshSessionMemory models `SessionMemory(session_id=session_id)`: pydantic
fills every other field with its schema default, with `datetime.now()`
abstracted as the instant `now`. -/
def freshSessionMemory (session_id : String) (now : Nat) : SessionMemory :=
  { session_id := session_id, created_at := now, updated_at := now }

/-- load_memory of `memory_service.py`. The persistent store is a map from
session id to the state of that session's file: `none` when
`path.exists()` is false, `some (Except.error ())` when opening, JSON-parsing
or `SessionMemory(**data)` validation raises (all inside the `try`, whose
`except` clause only logs), and `some (Except.ok m)` when the file parses and
validates to the memory `m`. In every non-ok case the source falls through to
`return SessionMemory(session_id=session_id)`. -/
def load_memory (store : String → Option (Except Unit SessionMemory))
    (session_id : String) (now : Nat) : SessionMemory :=
  match store session_id with
  | some (Except.ok m) => m
  | some (Except.error _) => freshSessionMemory session_id now
  | none => freshSessionMemory session_id now

/-- save_memory_record: the in-memory effect of `save_memory` in
`memory_service.py`, which sets `memory.updated_at = datetime.now()` before
serializing; every other field is written out as is. -/
def save_memory_record (memory : SessionMemory) (now : Nat) : SessionMemory :=
  { memory with updated_at := now }

/-- save_memory_file_states: the observable contents of the session file while
`save_memory` runs. The source does `open(path, 'w')` followed by
`json.dump(...)`: opening with mode `'w'` truncates the file to empty
immediately, and the dump then writes the serialized record. A reader opening
the file concurrently can therefore observe, in order: the previous contents
`oldContents`, the empty string right after truncation, and the serialized
record `newRecord` once the dump completes (intermediate partial prefixes of
`newRecord` are also possible; the empty state alone already witnesses
non-atomicity, so the embedding keeps the three boundary states). -/
def save_memory_file_states (oldContents : String) (newRecord : String) : List String :=
  [oldContents, "", newRecord]

/-- atomicWrite: a write procedure is atomic for a reader when every state of
the file it can observe during the write is either the old contents or the new
contents — the guarantee of write-to-temp-then-rename, under which the visible
file is replaced in one rename step. -/
def atomicWrite (states : List String) (oldContents newRecord : String) : Prop :=
  ∀ st ∈ states, st = oldContents ∨ st = newRecord

/-- PyVal: the Python values reachable while `get_context_from_memory`
traverses `memory.summary.model_dump()` — strings, lists and string-keyed
dicts. -/
inductive PyVal where
  | str : String → PyVal
  | list : List PyVal → PyVal
  | dict : List (String × PyVal) → PyVal

/-- pyQuote is the single-quote character, used by Python `repr` of strings. -/
def pyQuote : String := String.singleton (Char.ofNat 39)

mutual

/-- pyRepr models Python `repr` on the values of `PyVal` (for strings it is
modelled for content without embedded quotes or escapes, which is the shape of
summary fields: `repr('a') = 'a'` with single quotes). `str()` and `repr()`
agree on lists and dicts, and both recurse with `repr` on the elements. -/
def pyRepr : PyVal → String
  | PyVal.str s => pyQuote ++ s ++ pyQuote
  | PyVal.list xs => "[" ++ pyReprSeq xs ++ "]"
  | PyVal.dict fs => "\x7b" ++ pyReprFields fs ++ "\x7d"

/-- pyReprSeq: comma-joined `repr` of list elements. -/
def pyReprSeq : List PyVal → String
  | [] => ""
  | [v] => pyRepr v
  | v :: vs => pyRepr v ++ ", " ++ pyReprSeq vs

/-- pyReprFields: comma-joined `repr(key): repr(value)` entries of a dict. -/
def pyReprFields : List (String × PyVal) → String
  | [] => ""
  | [(k, v)] => pyQuote ++ k ++ pyQuote ++ ": " ++ pyRepr v
  | (k, v) :: fs => pyQuote ++ k ++ pyQuote ++ ": " ++ pyRepr v ++ ", " ++ pyReprFields fs

end

/-- pyStr models Python `str()`: the identity on strings, `repr` otherwise. -/
def pyStr : PyVal → String
  | PyVal.str s => s
  | v => pyRepr v

/-- pyTruthy models Python truthiness on `PyVal`: empty strings, lists and
dicts are falsy. -/
def pyTruthy : PyVal → Bool
  | PyVal.str s => !s.isEmpty
  | PyVal.list xs => !xs.isEmpty
  | PyVal.dict fs => !fs.isEmpty

/-- pyLookup models `value[part]` with a string key inside the traversal of
`get_context_from_memory`: a dict lookup returns the value or raises
`KeyError`; indexing a string or a list with a string key raises `TypeError`.
Both exceptions are caught by the `except (KeyError, TypeError)` clause. -/
def pyLookup : PyVal → String → Except Unit PyVal
  | PyVal.dict fs, k =>
    match fs.lookup k with
    | some v => Except.ok v
    | none => Except.error ()
  | PyVal.str _, _ => Except.error ()
  | PyVal.list _, _ => Except.error ()

/-- resolvePath: the loop `for part in parts: value = value[part]` of
`get_context_from_memory`, starting from `summary_dict`. -/
def resolvePath : PyVal → List String → Except Unit PyVal
  | v, [] => Except.ok v
  | v, p :: ps =>
    match pyLookup v p with
    | Except.ok v2 => resolvePath v2 ps
    | Except.error e => Except.error e

/-- summaryDump: `memory.summary.model_dump()`, the nested dict pydantic
produces for a `SessionSummary`, in schema field order. -/
def summaryDump (s : SessionSummary) : PyVal :=
  PyVal.dict [
    ("user_profile", PyVal.dict [
      ("preferences", PyVal.list (s.user_profile.preferences.map PyVal.str)),
      ("constraints", PyVal.list (s.user_profile.constraints.map PyVal.str))]),
    ("key_facts", PyVal.list (s.key_facts.map PyVal.str)),
    ("decisions", PyVal.list (s.decisions.map PyVal.str)),
    ("open_questions", PyVal.list (s.open_questions.map PyVal.str)),
    ("todos", PyVal.list (s.todos.map PyVal.str))]

/-- get_context_from_memory of `memory_service.py`: returns `""` when no
summary is present; otherwise resolves each dotted field path against the
summary dump, skips unresolvable paths (`KeyError`/`TypeError`) and falsy
values, renders list values as `f"\x7bfield\x7d: \x7b', '.join(str(v) for v in value)\x7d"`
and other values as `f"\x7bfield\x7d: \x7bvalue\x7d"`, and joins the rendered
lines with newlines. -/
def get_context_from_memory (memory : SessionMemory) (fields : List String) : String :=
  match memory.summary with
  | none => ""
  | some summary =>
    let summary_dict := summaryDump summary
    let context_parts := fields.foldl (fun acc field =>
      match resolvePath summary_dict (field.splitOn ".") with
      | Except.error _ => acc
      | Except.ok value =>
        if pyTruthy value then
          match value with
          | PyVal.list xs =>
            acc ++ [field ++ ": " ++ String.intercalate ", " (xs.map pyStr)]
          | _ => acc ++ [field ++ ": " ++ pyStr value]
        else acc) []
    String.intercalate "\n" context_parts

/-- renderTranscript: the rendering
`"\n".join([f"\x7bmsg.role\x7d: \x7bmsg.content\x7d" for msg in messages])`
used both for `recent_context` in `query_service.py` and for the
summarization transcript. -/
def renderTranscript (messages : List Message) : String :=
  String.intercalate "\n" (messages.map (fun msg => msg.role ++ ": " ++ msg.content))

/-- understand_query of `query_service.py`. The OpenAI structured-output call
is the `response` parameter: `Except.ok r` is a successful parse into
`QueryUnderstanding` (the source then overwrites `result.original_query` with
the literal input query and deterministically assembles
`final_augmented_context`); `Except.error ()` is any exception inside the
`try` (the model call raising, or the parsed result being unusable), answered
by the `except` clause with the fallback `QueryUnderstanding`. The memory
service singleton is called with the default `count` for recent messages. -/
def understand_query (s : Settings) (query : String) (memory : SessionMemory)
    (response : Except Unit QueryUnderstanding) : QueryUnderstanding :=
  let recent_messages := get_recent_messages s memory none
  let recent_context :=
    if !recent_messages.isEmpty then renderTranscript recent_messages
    else "No recent messages."
  match response with
  | Except.error _ =>
    { original_query := query
      is_ambiguous := false
      final_augmented_context :=
        "Recent conversation:\n" ++ recent_context ++ "\n\nUser query: " ++ query }
  | Except.ok parsed =>
    let result := { parsed with original_query := query }
    let parts0 : List String := []
    let parts1 :=
      if !recent_messages.isEmpty then parts0 ++ ["Recent conversation:\n" ++ recent_context]
      else parts0
    let parts2 :=
      if !result.needed_context_from_memory.isEmpty && memory.summary.isSome then
        let memory_context := get_context_from_memory memory result.needed_context_from_memory
        if !memory_context.isEmpty then parts1 ++ ["From session memory:\n" ++ memory_context]
        else parts1
      else parts1
    let effective_query :=
      match result.rewritten_query with
      | some rq => if result.is_ambiguous && !rq.isEmpty then rq else query
      | none => query
    let parts3 := parts2 ++ ["User query: " ++ effective_query]
    { result with final_augmented_context := String.intercalate "\n\n" parts3 }

/-- finalAugmentedContextSpec is written from the specification text, for
comparison with the code path of `understand_query`: concatenate,
double-newline-separated, in order: (a) "Recent conversation:" plus the
rendered recent transcript, only if the recent list is non-empty; (b)
"From session memory:" plus the text `context_from_summary` resolves for
`needed_context_from_memory`, only if that list is non-empty and a summary
exists and the resolved text is non-empty; (c) "User query: " plus the
effective query, where the effective query is `rewritten_query` when
`is_ambiguous` holds and a non-empty `rewritten_query` is set, and the
original query otherwise. -/
def finalAugmentedContextSpec (s : Settings) (query : String) (memory : SessionMemory)
    (r : QueryUnderstanding) : String :=
  let recent := get_recent_messages s memory none
  let partA : List String :=
    if recent ≠ [] then ["Recent conversation:\n" ++ renderTranscript recent] else []
  let resolved := get_context_from_memory memory r.needed_context_from_memory
  let partB : List String :=
    if r.needed_context_from_memory ≠ [] ∧ memory.summary.isSome ∧ resolved ≠ "" then
      ["From session memory:\n" ++ resolved]
    else []
  let effective :=
    if r.is_ambiguous ∧ ∃ rq, r.rewritten_query = some rq ∧ rq ≠ "" then
      r.rewritten_query.getD query
    else query
  String.intercalate "\n\n" (partA ++ partB ++ ["User query: " ++ effective])

/-- containsStr: `t` occurs as a contiguous substring of `s`. -/
def containsStr (s t : String) : Prop :=
  ∃ a b, s = a ++ t ++ b

/-- count_messages_tokens is the sum, over the messages, of the token count of
the rendered line `"<role>: <content>"`. -/
theorem count_messages_tokens_eq_sum (enc : String → List Nat) (messages : List Message) :
    count_messages_tokens enc messages
      = (messages.map (fun msg => count_tokens enc (msg.role ++ ": " ++ msg.content))).sum := by
  simp [count_messages_tokens, List.sum_eq_foldl, List.foldl_map]

/-- pySliceLast of a positive `k` is dropping all but the last `k` elements. -/
theorem pySliceLast_eq_drop {α : Type} (k : Nat) (l : List α) (h : k ≠ 0) :
    pySliceLast k l = l.drop (l.length - k) := by
  simp [pySliceLast, h]

/-- summarize_session on a non-empty message list and a successful model
response: the explicit record it produces. -/
theorem summarize_session_ok_eq (s : Settings) (enc : String → List Nat)
    (memory : SessionMemory) (summary : SessionSummary) (h : memory.messages ≠ []) :
    summarize_session s enc memory (Except.ok summary)
      = { memory with
          summary := some summary
          message_range_summarized := some ⟨0, memory.messages.length - 1⟩
          messages :=
            if memory.messages.length > s.RECENT_MESSAGES_COUNT
            then pySliceLast s.RECENT_MESSAGES_COUNT memory.messages else memory.messages
          total_tokens := count_messages_tokens enc
            (if memory.messages.length > s.RECENT_MESSAGES_COUNT
            then pySliceLast s.RECENT_MESSAGES_COUNT memory.messages else memory.messages) } := by
  have hne : memory.messages.isEmpty = false := by
    simp [List.isEmpty_iff, h]
  simp [summarize_session, hne]

/-- messagesAfterKeep: the truncation applied by a successful summarization is
dropping all but the last `RECENT_MESSAGES_COUNT` messages, for any positive
retention count. -/
theorem truncation_eq_drop (keep : Nat) {α : Type} (l : List α) (h : 1 ≤ keep) :
    (if l.length > keep then pySliceLast keep l else l) = l.drop (l.length - keep) := by
  by_cases hL : l.length > keep
  · rw [if_pos hL, pySliceLast_eq_drop _ _ (by omega)]
  · rw [if_neg hL]
    have h0 : l.length - keep = 0 := by omega
    rw [h0, List.drop_zero]

/-- C1: after `add_message` the `total_tokens` field equals
`count_messages_tokens` of the resulting message list — the sum over all
messages of the token count of `"<role>: <content>"` — for every session
memory (the empty one included) and every message; and the same equality
holds after a successful `summarize_session`, whose summarization runs on a
non-empty message list: the invariant
`total_tokens == TokenCounter(messages)` is restored by both mutating
operations, whatever the state of the invariant before. -/
theorem total_tokens_invariant_after_mutations (enc : String → List Nat) (s : Settings)
    (memory : SessionMemory) (message : Message) (summary : SessionSummary) :
    ((add_message enc memory message).total_tokens
        = count_messages_tokens enc (add_message enc memory message).messages
      ∧ (add_message enc memory message).total_tokens
        = ((add_message enc memory message).messages.map
            (fun msg => count_tokens enc (msg.role ++ ": " ++ msg.content))).sum)
    ∧ (memory.messages ≠ [] →
        (summarize_session s enc memory (Except.ok summary)).total_tokens
          = count_messages_tokens enc
              (summarize_session s enc memory (Except.ok summary)).messages
        ∧ (summarize_session s enc memory (Except.ok summary)).total_tokens
          = ((summarize_session s enc memory (Except.ok summary)).messages.map
              (fun msg => count_tokens enc (msg.role ++ ": " ++ msg.content))).sum) := by
  constructor
  · exact ⟨rfl, count_messages_tokens_eq_sum enc _⟩
  · intro h
    rw [summarize_session_ok_eq s enc memory summary h]
    exact ⟨rfl, count_messages_tokens_eq_sum enc _⟩

/-- C1 witness: the invariant after appending the first message to a fresh
empty session, and after summarizing a concrete non-empty session. -/
theorem total_tokens_invariant_after_mutations_witness :
    (add_message (fun t => List.replicate t.length 0) (freshSessionMemory "w1" 0)
        { role := "user", content := "hi" }).total_tokens
      = count_messages_tokens (fun t => List.replicate t.length 0)
          (add_message (fun t => List.replicate t.length 0) (freshSessionMemory "w1" 0)
            { role := "user", content := "hi" }).messages
    ∧ (summarize_session defaultSettings (fun t => List.replicate t.length 0)
        ({ session_id := "w1b", messages := [{ role := "user", content := "hi" }],
           total_tokens := 7, created_at := 0, updated_at := 0 } : SessionMemory)
        (Except.ok {})).total_tokens
      = count_messages_tokens (fun t => List.replicate t.length 0)
          (summarize_session defaultSettings (fun t => List.replicate t.length 0)
            ({ session_id := "w1b", messages := [{ role := "user", content := "hi" }],
               total_tokens := 7, created_at := 0, updated_at := 0 } : SessionMemory)
            (Except.ok {})).messages :=
  ⟨(total_tokens_invariant_after_mutations (fun t => List.replicate t.length 0) defaultSettings
      (freshSessionMemory "w1" 0) { role := "user", content := "hi" } {}).1.1,
   ((total_tokens_invariant_after_mutations (fun t => List.replicate t.length 0) defaultSettings
      ({ session_id := "w1b", messages := [{ role := "user", content := "hi" }],
         total_tokens := 7, created_at := 0, updated_at := 0 } : SessionMemory)
      { role := "x", content := "y" } {}).2 (by decide)).1⟩

/-- C2: `should_summarize` returns `true` exactly when `total_tokens` is
strictly greater than `TOKEN_THRESHOLD`; at the threshold exactly it returns
`false`. -/
theorem should_summarize_strict_threshold (s : Settings) (memory : SessionMemory) :
    (should_summarize s memory = true ↔ memory.total_tokens > s.TOKEN_THRESHOLD)
    ∧ (memory.total_tokens = s.TOKEN_THRESHOLD → should_summarize s memory = false) := by
  refine ⟨by simp [should_summarize], fun h => by simp [should_summarize, h]⟩

/-- C2 witness: a memory sitting exactly at the default threshold of 1000
tokens does not trigger summarization. -/
theorem should_summarize_strict_threshold_witness :
    should_summarize defaultSettings
      ({ session_id := "w2", total_tokens := 1000, created_at := 0, updated_at := 0 } :
        SessionMemory) = false :=
  (should_summarize_strict_threshold defaultSettings _).2 rfl

/-- C3: a successful `summarize_session` on a non-empty pre-truncation list of
length `L` replaces `summary` with the model response, sets
`message_range_summarized` to `from 0, to L - 1`, truncates `messages` to the
last `RECENT_MESSAGES_COUNT` entries (all entries when `L` is at most that
count), bounds the resulting length, and recomputes `total_tokens` over the
truncated list. Stated for any settings whose retention count is at least 1,
which covers the repository default of 5 (at 0, the slice `lst[-0:]` in the
source would keep the whole list). -/
theorem summarize_session_success_postconditions (s : Settings) (enc : String → List Nat)
    (memory : SessionMemory) (summary : SessionSummary)
    (h1 : memory.messages ≠ []) (h2 : 1 ≤ s.RECENT_MESSAGES_COUNT) :
    (summarize_session s enc memory (Except.ok summary)).summary = some summary
    ∧ (summarize_session s enc memory (Except.ok summary)).message_range_summarized
        = some ⟨0, memory.messages.length - 1⟩
    ∧ (summarize_session s enc memory (Except.ok summary)).messages
        = memory.messages.drop (memory.messages.length - s.RECENT_MESSAGES_COUNT)
    ∧ (summarize_session s enc memory (Except.ok summary)).messages.length
        = min s.RECENT_MESSAGES_COUNT memory.messages.length
    ∧ (summarize_session s enc memory (Except.ok summary)).messages.length
        ≤ max s.RECENT_MESSAGES_COUNT memory.messages.length
    ∧ (s.RECENT_MESSAGES_COUNT ≤ memory.messages.length →
        (summarize_session s enc memory (Except.ok summary)).messages.length
          ≤ s.RECENT_MESSAGES_COUNT)
    ∧ (summarize_session s enc memory (Except.ok summary)).total_tokens
        = count_messages_tokens enc (summarize_session s enc memory (Except.ok summary)).messages
    := by
  have hok := summarize_session_ok_eq s enc memory summary h1
  have htr := truncation_eq_drop s.RECENT_MESSAGES_COUNT memory.messages h2
  rw [hok]
  refine ⟨rfl, rfl, htr, ?_, ?_, ?_, rfl⟩
  · simp only [htr, List.length_drop]
    omega
  · simp only [htr, List.length_drop]
    omega
  · intro hle
    simp only [htr, List.length_drop]
    omega

/-- C3 witness: summarizing a concrete seven-message session with the default
settings keeps exactly the last five messages and records the range 0..6. -/
theorem summarize_session_success_postconditions_witness :
    (summarize_session defaultSettings (fun t => List.replicate t.length 0)
        ({ session_id := "w3",
           messages := [{ role := "user", content := "a" }, { role := "assistant", content := "b" },
             { role := "user", content := "c" }, { role := "assistant", content := "d" },
             { role := "user", content := "e" }, { role := "assistant", content := "f" },
             { role := "user", content := "g" }],
           created_at := 0, updated_at := 0 } : SessionMemory)
        (Except.ok {})).message_range_summarized = some ⟨0, 6⟩
    ∧ (summarize_session defaultSettings (fun t => List.replicate t.length 0)
        ({ session_id := "w3",
           messages := [{ role := "user", content := "a" }, { role := "assistant", content := "b" },
             { role := "user", content := "c" }, { role := "assistant", content := "d" },
             { role := "user", content := "e" }, { role := "assistant", content := "f" },
             { role := "user", content := "g" }],
           created_at := 0, updated_at := 0 } : SessionMemory)
        (Except.ok {})).messages.length = 5 := by
  have h := summarize_session_success_postconditions defaultSettings
    (fun t => List.replicate t.length 0)
    ({ session_id := "w3",
       messages := [{ role := "user", content := "a" }, { role := "assistant", content := "b" },
         { role := "user", content := "c" }, { role := "assistant", content := "d" },
         { role := "user", content := "e" }, { role := "assistant", content := "f" },
         { role := "user", content := "g" }],
       created_at := 0, updated_at := 0 } : SessionMemory)
    {} (by decide) (by decide)
  exact ⟨h.2.1, by rw [h.2.2.2.1]; rfl⟩

/-- C4: `summarize_session` returns its memory argument completely unchanged
when the message list is empty (whatever the model response parameter would
be) and when the model call raises (the `except` clause only logs). -/
theorem summarize_session_failure_noop (s : Settings) (enc : String → List Nat)
    (memory : SessionMemory) (response : Except Unit SessionSummary) (e : Unit) :
    (memory.messages = [] → summarize_session s enc memory response = memory)
    ∧ summarize_session s enc memory (Except.error e) = memory := by
  constructor
  · intro h
    simp [summarize_session, h]
  · by_cases h : memory.messages = [] <;> simp [summarize_session, h, List.isEmpty_iff]

/-- C4 witness: an empty concrete memory is returned unchanged even when the
model response would be a well-formed summary. -/
theorem summarize_session_failure_noop_witness :
    summarize_session defaultSettings (fun t => List.replicate t.length 0)
      (freshSessionMemory "w4" 0) (Except.ok {}) = freshSessionMemory "w4" 0 :=
  (summarize_session_failure_noop defaultSettings (fun t => List.replicate t.length 0)
    (freshSessionMemory "w4" 0) (Except.ok {}) ()).1 rfl

/-- C7: `load_memory` is a total function (so it never raises), and whenever
the persisted record is absent (`path.exists()` false) or present but
unreadable, invalid JSON or an invalid `SessionMemory` (all of which raise
inside the `try` and are swallowed), it returns a fresh empty `SessionMemory`
carrying the requested session id: no summary, empty messages, zero tokens. -/
theorem load_memory_fallback_fresh (store : String → Option (Except Unit SessionMemory))
    (session_id : String) (now : Nat)
    (h : store session_id = none ∨ store session_id = some (Except.error ())) :
    load_memory store session_id now = freshSessionMemory session_id now
    ∧ (load_memory store session_id now).session_id = session_id
    ∧ (load_memory store session_id now).summary = none
    ∧ (load_memory store session_id now).messages = []
    ∧ (load_memory store session_id now).total_tokens = 0 := by
  rcases h with h | h <;> simp [load_memory, h, freshSessionMemory]

/-- C7 witness: loading a session with no persisted record, and loading a
session whose persisted file is corrupt, both yield the fresh empty memory. -/
theorem load_memory_fallback_fresh_witness :
    load_memory (fun _ => none) "w7" 3 = freshSessionMemory "w7" 3
    ∧ (load_memory (fun _ => some (Except.error ())) "w7" 3).total_tokens = 0 :=
  ⟨(load_memory_fallback_fresh (fun _ => none) "w7" 3 (Or.inl rfl)).1,
   (load_memory_fallback_fresh (fun _ => some (Except.error ())) "w7" 3 (Or.inr rfl)).2.2.2.2⟩

/-- C8 counterexample: the write performed by `save_memory` is
`open(path, 'w')` followed by `json.dump`, which truncates the session file in
place before writing; the empty file state it exposes is neither the old nor
the new record, so the write is not atomic for a concurrent reader, contrary
to the claim. Shown at a concrete old and new serialized record. -/
theorem save_memory_write_not_atomic_cex :
    ¬ atomicWrite
        (save_memory_file_states "\x7b\"total_tokens\": 1\x7d" "\x7b\"total_tokens\": 2\x7d")
        "\x7b\"total_tokens\": 1\x7d" "\x7b\"total_tokens\": 2\x7d" := by
  intro h
  rcases h "" (by simp [save_memory_file_states]) with h0 | h0 <;> simp at h0

/-- C8 amended: `save_memory` refreshes `updated_at` and leaves every other
field of the record as is, and it does write the full serialized record as
the final file state; but the write is a direct in-place truncate-then-write,
not an atomic replace, so for any non-empty old contents and non-empty new
record a concurrent reader can observe a state (the truncated empty file)
that is neither the old nor the new record. -/
theorem save_memory_effects (memory : SessionMemory) (now : Nat)
    (oldContents newRecord : String)
    (h1 : oldContents ≠ "") (h2 : newRecord ≠ "") :
    (save_memory_record memory now).updated_at = now
    ∧ (save_memory_record memory now).session_id = memory.session_id
    ∧ (save_memory_record memory now).summary = memory.summary
    ∧ (save_memory_record memory now).message_range_summarized = memory.message_range_summarized
    ∧ (save_memory_record memory now).messages = memory.messages
    ∧ (save_memory_record memory now).total_tokens = memory.total_tokens
    ∧ (save_memory_record memory now).created_at = memory.created_at
    ∧ (save_memory_file_states oldContents newRecord).getLast? = some newRecord
    ∧ ¬ atomicWrite (save_memory_file_states oldContents newRecord) oldContents newRecord := by
  refine ⟨rfl, rfl, rfl, rfl, rfl, rfl, rfl, rfl, fun hA => ?_⟩
  rcases hA "" (by simp [save_memory_file_states]) with h0 | h0
  · exact h1 h0.symm
  · exact h2 h0.symm

/-- C8 amended witness: the effects at a concrete memory and file contents. -/
theorem save_memory_effects_witness :
    (save_memory_record (freshSessionMemory "w8" 0) 9).updated_at = 9
    ∧ ¬ atomicWrite (save_memory_file_states "old" "new") "old" "new" :=
  ⟨(save_memory_effects (freshSessionMemory "w8" 0) 9 "old" "new"
      (by decide) (by decide)).1,
   (save_memory_effects (freshSessionMemory "w8" 0) 9 "old" "new"
      (by decide) (by decide)).2.2.2.2.2.2.2.2⟩

/-- C9 counterexample: the claim says `recent_messages(memory, count)` returns
the last `count` messages for every non-negative `count`; at `count = 0` the
last zero messages would be the empty list, but the source line
`count = count or settings.RECENT_MESSAGES_COUNT` treats `0` as falsy and
substitutes the default, so a one-message memory yields a non-empty result. -/
theorem get_recent_messages_zero_count_cex :
    get_recent_messages defaultSettings
      ({ session_id := "c9", messages := [{ role := "user", content := "hi" }],
         created_at := 0, updated_at := 0 } : SessionMemory) (some 0) ≠ [] := by
  decide

/-- C9 amended: for every strictly positive `count`, `get_recent_messages`
returns exactly the last `count` messages in order (the whole list when fewer
exist); when `count` is not supplied — and likewise when `count = 0`, which
Python's `or` treats as not supplied — the configured `RECENT_MESSAGES_COUNT`
is used. Stated for settings with a positive retention count, covering the
repository default of 5. -/
theorem get_recent_messages_last_count (s : Settings) (memory : SessionMemory) (count : Nat)
    (h1 : 1 ≤ count) (h2 : 1 ≤ s.RECENT_MESSAGES_COUNT) :
    get_recent_messages s memory (some count)
      = memory.messages.drop (memory.messages.length - count)
    ∧ get_recent_messages s memory none
      = memory.messages.drop (memory.messages.length - s.RECENT_MESSAGES_COUNT)
    ∧ get_recent_messages s memory (some 0) = get_recent_messages s memory none := by
  by_cases hm : memory.messages = []
  · simp [get_recent_messages, hm]
  · have hne : memory.messages.isEmpty = false := by simp [List.isEmpty_iff, hm]
    refine ⟨?_, ?_, ?_⟩
    · simp only [get_recent_messages, hne]
      rw [if_neg (by omega : ¬ count = 0), if_neg (by simp [List.isEmpty_iff, hm])]
      exact pySliceLast_eq_drop count memory.messages (by omega)
    · simp only [get_recent_messages, hne]
      rw [if_neg (by simp [List.isEmpty_iff, hm])]
      exact pySliceLast_eq_drop s.RECENT_MESSAGES_COUNT memory.messages (by omega)
    · simp [get_recent_messages]

/-- C9 amended witness: the last two of three messages, and the coincidence of
`count = 0` with the default, at a concrete memory. -/
theorem get_recent_messages_last_count_witness :
    get_recent_messages defaultSettings
      ({ session_id := "w9",
         messages := [{ role := "user", content := "a" }, { role := "assistant", content := "b" },
           { role := "user", content := "c" }],
         created_at := 0, updated_at := 0 } : SessionMemory) (some 2)
      = [{ role := "assistant", content := "b" }, { role := "user", content := "c" }] := by
  have h := get_recent_messages_last_count defaultSettings
    ({ session_id := "w9",
       messages := [{ role := "user", content := "a" }, { role := "assistant", content := "b" },
         { role := "user", content := "c" }],
       created_at := 0, updated_at := 0 } : SessionMemory) 2 (by decide) (by decide)
  rw [h.1]
  rfl

/-- C10: `add_message` changes only the `messages` list — by appending the
given message at the end, preserving the existing order — and the
`total_tokens` field; `session_id`, `summary`, `message_range_summarized`,
`created_at` (and `updated_at`) are all left unchanged. -/
theorem add_message_appends_and_frames (enc : String → List Nat) (memory : SessionMemory)
    (message : Message) :
    (add_message enc memory message).messages = memory.messages ++ [message]
    ∧ (add_message enc memory message).session_id = memory.session_id
    ∧ (add_message enc memory message).summary = memory.summary
    ∧ (add_message enc memory message).message_range_summarized
        = memory.message_range_summarized
    ∧ (add_message enc memory message).created_at = memory.created_at
    ∧ (add_message enc memory message).updated_at = memory.updated_at :=
  ⟨rfl, rfl, rfl, rfl, rfl, rfl⟩

/-- stringIsEmptyEqFalse: a string's `isEmpty` test is `false` exactly when
the string is not empty (the Bool-to-Prop bridge used below). -/
theorem string_isEmpty_eq_false (t : String) : (t.isEmpty = false) ↔ ¬ t = "" := by
  rw [← String.isEmpty_iff t]
  cases t.isEmpty <;> simp

/-- C5: the `final_augmented_context` a successful `understand_query` produces
is exactly the double-newline-separated concatenation described by the
specification: (a) "Recent conversation:" plus the rendered recent transcript
when the recent list is non-empty, (b) "From session memory:" plus the text
`get_context_from_memory` resolves when `needed_context_from_memory` is
non-empty, a summary exists and the resolved text is non-empty, (c)
"User query: " plus the effective query — `rewritten_query` when
`is_ambiguous` holds and a non-empty rewritten query is set (the source tests
Python truthiness, so an empty-string rewrite does not count as set), the
original query otherwise. `finalAugmentedContextSpec` is written from the
specification's words; the theorem equates the code path with it for every
query, memory and parsed model response. -/
theorem understand_query_builds_spec_context (s : Settings) (query : String)
    (memory : SessionMemory) (r : QueryUnderstanding) :
    (understand_query s query memory (Except.ok r)).final_augmented_context
      = finalAugmentedContextSpec s query memory r := by
  simp only [understand_query, finalAugmentedContextSpec]
  by_cases hrec : get_recent_messages s memory none = [] <;>
  by_cases hneed : r.needed_context_from_memory = [] <;>
  rcases hsum : memory.summary with _ | sum <;>
  by_cases hmc : get_context_from_memory memory r.needed_context_from_memory = "" <;>
  rcases hrw : r.rewritten_query with _ | rq <;>
  cases hamb : r.is_ambiguous <;>
  simp [hrec, hneed, hsum, hmc, hrw, hamb, List.isEmpty_iff, String.isEmpty_iff,
    string_isEmpty_eq_false]

/-- C6: when the model call inside `understand_query` fails, the returned
`QueryUnderstanding` carries the literal input query as `original_query`,
`is_ambiguous = false`, no rewritten query, no clarifying questions (and no
requested memory fields), and its `final_augmented_context` is built from just
the recent transcript and the original query — the summary is skipped
entirely — so it contains the literal original query and, when recent
messages exist, the rendered recent transcript. -/
theorem understand_query_fallback_shape (s : Settings) (query : String)
    (memory : SessionMemory) (e : Unit) :
    (understand_query s query memory (Except.error e)).original_query = query
    ∧ (understand_query s query memory (Except.error e)).is_ambiguous = false
    ∧ (understand_query s query memory (Except.error e)).rewritten_query = none
    ∧ (understand_query s query memory (Except.error e)).clarifying_questions = []
    ∧ (understand_query s query memory (Except.error e)).needed_context_from_memory = []
    ∧ (understand_query s query memory (Except.error e)).final_augmented_context
        = "Recent conversation:\n"
          ++ (if get_recent_messages s memory none ≠ [] then
                renderTranscript (get_recent_messages s memory none)
              else "No recent messages.")
          ++ "\n\nUser query: " ++ query
    ∧ containsStr (understand_query s query memory (Except.error e)).final_augmented_context query
    ∧ (get_recent_messages s memory none ≠ [] →
        containsStr (understand_query s query memory (Except.error e)).final_augmented_context
          (renderTranscript (get_recent_messages s memory none))) := by
  refine ⟨rfl, rfl, rfl, rfl, rfl, ?_, ?_, ?_⟩
  · by_cases hrec : get_recent_messages s memory none = [] <;>
      simp [understand_query, hrec, List.isEmpty_iff]
  · exact ⟨"Recent conversation:\n"
        ++ (if !(get_recent_messages s memory none).isEmpty then
              renderTranscript (get_recent_messages s memory none)
            else "No recent messages.")
        ++ "\n\nUser query: ", "",
      by rw [String.append_empty]; exact rfl⟩
  · intro h
    have hne : (get_recent_messages s memory none).isEmpty = false := by
      simp [List.isEmpty_iff, h]
    have hfin : (understand_query s query memory (Except.error e)).final_augmented_context
        = "Recent conversation:\n" ++ renderTranscript (get_recent_messages s memory none)
          ++ "\n\nUser query: " ++ query := by
      simp [understand_query, hne]
    refine ⟨"Recent conversation:\n", "\n\nUser query: " ++ query, ?_⟩
    rw [hfin, String.append_assoc]

/-- C6 witness: at a concrete one-message memory the fallback context contains
the rendered recent transcript. -/
theorem understand_query_fallback_shape_witness :
    containsStr
      (understand_query defaultSettings "q"
        ({ session_id := "w6", messages := [{ role := "user", content := "hi" }],
           created_at := 0, updated_at := 0 } : SessionMemory)
        (Except.error ())).final_augmented_context
      (renderTranscript (get_recent_messages defaultSettings
        ({ session_id := "w6", messages := [{ role := "user", content := "hi" }],
           created_at := 0, updated_at := 0 } : SessionMemory) none)) :=
  (understand_query_fallback_shape defaultSettings "q"
    ({ session_id := "w6", messages := [{ role := "user", content := "hi" }],
       created_at := 0, updated_at := 0 } : SessionMemory) ()).2.2.2.2.2.2.2 (by decide)
